import Mathlib

/-!
Verification of the DNS resolution and wildcard-detection core
(`bbot/core/helpers/dns/dns.py`, class `DNSHelper`).

The Python methods `resolve_event`, `is_wildcard` and `handle_wildcard_event`
are embedded as pure Lean functions.  External collaborators are passed in
explicitly:

* the engine calls (`run_and_return`) become oracle function arguments;
* the helpers imported from the `misc` module (`is_ip`, `is_dns_name`,
  `is_domain`, `clean_dns_record`) become fields of a `Misc` record, since
  their code is external to the file under study;
* `host_in_host` and `parent_domain`, whose code is likewise not available,
  are modelled concretely from the wording of the specification;
* The dynamic-binding behaviour of Python that the code depends on is made
  explicit: reading a never-assigned local raises a `NameError`, which the
  embedding represents with the `PyErr.nameError` constructor, and a
  function can return tuples of different arities on different paths,
  represented by the `ResolveRet` sum.
-/

namespace BBotDNS

/-- Event tags: Python `set` of strings, modelled as a duplicate-free list
grown by `add_tag`. -/
abbrev Tags := List String

/-- `event.dns_children`: mapping record type → discovered values, modelled
as an association list (Python dicts preserve insertion order). -/
abbrev DnsChildren := List (String × List String)

/-- Result of wildcard detection: per record type, a pair
`(is_wildcard, wildcard_parent)` where `is_wildcard` is Python
True/False/None, i.e. `Option Bool` (`some true`, `some false`, `none`).
An association list keeps the iteration order of the dict, on which the
"first wildcard-classified record type" rule depends. -/
abbrev WildcardMap := List (String × (Option Bool × String))

/-- Python exceptions that the embedded code can raise:
`nameError s` models `NameError` on reading the unbound variable `s`;
`raised s` models an exception propagating out of an awaited engine call. -/
inductive PyErr where
  | nameError (var : String)
  | raised (msg : String)
deriving Repr, DecidableEq

/-- The `ScanEvent` contract consumed by the core: `host` is `none` when the
event has no host (Python `None`), `data_writes` counts assignments to
`event.data` so that "the assignment happens only if the value differs" is
observable. -/
structure Event where
  host : Option String
  type : String
  data : String
  tags : Tags
  dns_children : DnsChildren
  data_writes : Nat
deriving Repr, DecidableEq

/-- `event.add_tag(t)`: set-insert into `event.tags`. -/
def Event.add_tag (ev : Event) (t : String) : Event :=
  if t ∈ ev.tags then ev else { ev with tags := ev.tags ++ [t] }

/-- `event.data = d`: assignment, counted by `data_writes`. -/
def Event.set_data (ev : Event) (d : String) : Event :=
  { ev with data := d, data_writes := ev.data_writes + 1 }

/-- Python `s.split(".")`: split into labels at every dot, keeping empty
parts (kernel-reducible embedding of the string operation). -/
def splitDot (s : String) : List String :=
  (s.data.foldr (fun c acc =>
    match acc with
    | cur :: rest =>
        if c == '.' then [] :: (cur :: rest) else (c :: cur) :: rest
    | [] => [[c]]) [[]]).map String.mk

/-- Python `".".join(parts)`, the inverse of `splitDot`. -/
def joinDot (ls : List String) : String :=
  String.mk (List.intercalate ['.'] (ls.map String.data))

/-- Python `s.lower()` (kernel-reducible embedding). -/
def lowerStr (s : String) : String := String.mk (s.data.map Char.toLower)

/-- Python `s.upper()` (kernel-reducible embedding). -/
def upperStr (s : String) : String := String.mk (s.data.map Char.toUpper)

/-- `str(event.host)`: Python renders `None` as the string "None". -/
def pyStrHost : Option String → String
  | some s => s
  | none => "None"

/-- Truthiness of `event.host`: `None` and the empty string are falsy. -/
def hostTruthy : Option String → Bool
  | some s => !s.isEmpty
  | none => false

/-- The helpers the module imports from `..misc`; their code is external to
the file under study, so they are abstract here and theorems quantify over
them. -/
structure Misc where
  is_ip : String → Bool
  is_dns_name : String → Bool
  is_domain : String → Bool
  clean_dns_record : String → String

/-- Modelled from the spec: `host_in_host` (imported from the repository
`misc` module, whose source is not provided) — "suffix match = hostname
equals or is a subdomain of an ignored domain". -/
def host_in_host (a b : String) : Bool :=
  a == b || ("." ++ b).data.isSuffixOf a.data

/-- Modelled from the spec: `parent_helper.parent_domain` (not provided) —
"the domain at the level above the leftmost label of a given hostname (e.g.,
parent of `www.example.com` is `example.com`)". -/
def parent_domain (s : String) : String :=
  joinDot (splitDot s).tail

/-- `[ips, rdtype].count(None)` from the precondition check of `is_wildcard`
(the Python list is heterogeneous; only the count of `None`s matters). -/
def countNone (ips : Option (List String)) (rdtype : Option String) : Nat :=
  (if ips.isNone then 1 else 0) + (if rdtype.isNone then 1 else 0)

/-- Embeds `DNSHelper.is_wildcard` (dns.py lines 128–181).
`engine q ips rdtype` stands for
`await self.run_and_return("is_wildcard", ...)`; the `Bool` in the result
records whether that engine call happened, so "issues zero network queries"
is the flag being `false`.  The `ValueError` at the top is the `.error`
case. -/
def is_wildcard (m : Misc) (wildcard_ignore : List String)
    (engine : String → Option (List String) → Option String → WildcardMap)
    (query : String) (ips : Option (List String)) (rdtype : Option String) :
    Except String (WildcardMap × Bool) :=
  if countNone ips rdtype == 1 then
    .error "Both ips and rdtype must be specified"
  else if !m.is_dns_name query then
    -- skip if query is not a dns name
    .ok ([], false)
  else if wildcard_ignore.any (fun d => host_in_host query d) then
    -- skip check if the parent domain of the query is excluded in the config
    .ok ([], false)
  else
    let query := m.clean_dns_record query
    if m.is_ip query || !query.data.contains '.' then
      -- skip check if it is an IP or a plain hostname
      .ok ([], false)
    else if m.is_domain query then
      -- skip check if the query is a domain
      .ok ([], false)
    else
      .ok (engine query ips rdtype, true)

/-- The two tuple shapes `resolve_event` actually returns: the early-exit
path returns a four-tuple `(tags, whitelisted, blacklisted, children)`
(line 99), the cache-miss path a two-tuple `(tags, children)` (line 126). -/
inductive ResolveRet where
  | four (tags : Tags) (whitelisted : Bool) (blacklisted : Bool)
      (children : DnsChildren)
  | two (tags : Tags) (children : DnsChildren)
deriving Repr, DecidableEq

/-- `self._event_cache`: hostname → (tags, dns_children).  The claims under
study assume no intervening eviction, so a plain association list models the
LRU cache. -/
abbrev EventCache := List (String × (Tags × DnsChildren))

def cacheGet (c : EventCache) (k : String) : Option (Tags × DnsChildren) :=
  (c.find? (fun e => e.1 == k)).map (fun e => e.2)

def cacheSet (c : EventCache) (k : String) (v : Tags × DnsChildren) :
    EventCache :=
  (k, v) :: c.filter (fun e => e.1 != k)

/-- Embeds `DNSHelper.resolve_event` (dns.py lines 95–126).
`engine host type minimal` stands for
`await self.run_and_return("resolve_event", ...)`.  Faithful to the source:

* the guard at lines 97–99 returns the four-tuple
  `set(), False, False, dict()`;
* the duplicate guard at lines 106–107 is unreachable (same condition as
  lines 97–99, which already returned), so it is omitted;
* on a cache hit (line 113), `event_tags.update(_event_tags)` succeeds and
  then line 116 reads `_event_whitelisted`, a variable never assigned
  anywhere in the function or module: Python raises `NameError`, and the
  surrounding `except KeyError` does not catch it;
* on a cache miss, the engine result is stored and returned as a
  two-tuple (lines 122–126).

The per-host lock only serializes concurrent callers and is invisible to
this sequential embedding. -/
def resolve_event
    (engine : String → String → Bool → (Tags × DnsChildren))
    (cache : EventCache) (event : Event) (minimal : Bool) :
    Except PyErr (ResolveRet × EventCache) :=
  if !hostTruthy event.host || event.type == "IP_RANGE" then
    -- tags, whitelisted, blacklisted, children
    .ok (.four [] false false [], cache)
  else
    let event_host := pyStrHost event.host
    let event_type := event.type
    match cacheGet cache event_host with
    | some _ =>
        .error (.nameError "_event_whitelisted")
    | none =>
        let r := engine event_host event_type minimal
        .ok (.two r.1 r.2, cacheSet cache event_host r)

/-- One iteration of the tagging loop in `handle_wildcard_event`
(dns.py lines 212–217): `wildcard_tag` starts as `"error"`, switches to
`"wildcard"` only when `is_wildcard == True`; only in that case is the bare
`"wildcard"` tag added, and every entry gets
`f"{rdtype.lower()}-{wildcard_tag}"`. -/
def tag_one (ev : Event) (entry : String × (Option Bool × String)) : Event :=
  let rdtype := entry.1
  let is_w := entry.2.1
  let ev' := if is_w == some true then ev.add_tag "wildcard" else ev
  let wildcard_tag := if is_w == some true then "wildcard" else "error"
  ev'.add_tag (lowerStr rdtype ++ "-" ++ wildcard_tag)

/-- The `for rdtype, (is_wildcard, wildcard_host) in wildcard_rdtypes.items()`
loop of `handle_wildcard_event`. -/
def tag_step (ev : Event) (m : WildcardMap) : Event :=
  m.foldl tag_one ev

/-- Lines 233–237: `wildcard_parent` defaults to
`parent_domain(event_host)` and is overwritten by the `_parent_domain` of
the first entry whose `_is_wildcard` is truthy (`if _is_wildcard:` — only
Python `True` is truthy among True/False/None), then the loop breaks. -/
def wildcard_parent_of (m : WildcardMap) (event_host : String) : String :=
  match m.find? (fun e => e.2.1 == some true) with
  | some e => e.2.2
  | none => parent_domain event_host

/-- The body of `if wildcard_rdtypes:` (lines 221–243): compute the
uppercased resolved record types, test them all against the *keys* of
`wildcard_rdtypes`, and if the event is a full wildcard of type DNS_NAME
whose data does not contain the label `_wildcard`, rewrite `event.data` to
`_wildcard.<parent>` when that differs from the current value. -/
def rewrite_step (ev : Event) (event_host : String) (m : WildcardMap) :
    Event :=
  if m.isEmpty then ev
  else
    -- these are the rdtypes that successfully resolve
    let resolved_rdtypes := ev.dns_children.map (fun c => upperStr c.1)
    -- these are the rdtypes that have wildcards (keys of the dict)
    let wildcard_rdtypes_set := m.map (fun e => e.1)
    -- consider the event a full wildcard if all its records are wildcards
    let event_is_wildcard :=
      !resolved_rdtypes.isEmpty &&
        resolved_rdtypes.all (fun r => wildcard_rdtypes_set.contains r)
    if event_is_wildcard then
      if ev.type == "DNS_NAME" &&
          !(splitDot ev.data).contains "_wildcard" then
        let wildcard_data := "_wildcard." ++ wildcard_parent_of m event_host
        if wildcard_data != ev.data then ev.set_data wildcard_data else ev
      else ev
    else ev

/-- Embeds `DNSHelper.handle_wildcard_event` (dns.py lines 186–257).
`detector h` stands for `await self.is_wildcard(event_host)`, which reaches
the engine and can raise (its failure propagates as `PyErr.raised`).

Faithful to the control flow of the source:

* the body sits in `try: ... finally: log.debug(...)` — the `finally`
  clause only logs, so it neither swallows nor alters exceptions;
* the local `wildcard_rdtypes` is assigned only inside
  `if not is_ip(event.host):` (line 211); the embedding carries it as an
  `Option WildcardMap` that is `none` when that branch was skipped, and a
  read of the unbound variable raises `NameError` (line 221 would do so if
  reached unbound);
* the rewrite block is guarded by `(not is_ip(event.host)) and
  event.dns_children` (line 220). -/
def handle_wildcard_event (misc : Misc)
    (detector : String → Except String WildcardMap) (event : Event) :
    Except PyErr Event :=
  let event_host := pyStrHost event.host
  let step1 : Except PyErr (Event × Option WildcardMap) :=
    if !misc.is_ip event_host then
      -- check if the dns name itself is a wildcard entry
      match detector event_host with
      | .error e => .error (.raised e)
      | .ok m => .ok (tag_step event m, some m)
    else
      .ok (event, none)
  match step1 with
  | .error e => .error e
  | .ok (ev, wildcard_rdtypes) =>
      -- wildcard event modification (www.evilcorp.com --> _wildcard....)
      if !misc.is_ip event_host && !ev.dns_children.isEmpty then
        match wildcard_rdtypes with
        | none => .error (.nameError "wildcard_rdtypes")
        | some m => .ok (rewrite_step ev event_host m)
      else
        .ok ev

/-- Modelled from the spec: concrete instances of the external `misc`
helpers, used to evaluate the embedding at concrete inputs.  `is_ip`
recognizes dotted-quad IPv4 literals ("distinguished from an IP literal by
a canonical IP-parse check"); `is_dns_name` accepts nonempty strings of DNS
name characters; `is_domain` recognizes a bare registrable domain (two
labels); `clean_dns_record` lowercases and strips a trailing dot. -/
def miscModel : Misc where
  is_ip s :=
    (splitDot s).length == 4 &&
      (splitDot s).all (fun p => !p.isEmpty && p.data.all Char.isDigit)
  is_dns_name s :=
    !s.isEmpty &&
      s.data.all (fun c => c.isAlphanum || c == '.' || c == '-' || c == '_')
  is_domain s := (splitDot s).length == 2
  clean_dns_record s :=
    lowerStr (if ("." : String).data.isSuffixOf s.data
              then String.mk s.data.dropLast else s)

/-- `true` iff the call returned normally (no Python exception). -/
def returns_ok (r : Except PyErr Event) : Bool :=
  match r with
  | .ok _ => true
  | .error _ => false

/-! ### Concrete fixtures for evaluating the embedding -/

/-- A resolution-engine oracle returning a fixed answer. -/
def engineA : String → String → Bool → (Tags × DnsChildren) :=
  fun _ _ _ => (["resolved"], [("A", ["1.2.3.4"])])

/-- A wildcard-engine oracle returning a fixed answer. -/
def engineW : String → Option (List String) → Option String → WildcardMap :=
  fun _ _ _ => [("A", (some true, "evilcorp.com"))]

/-- A DNS_NAME event with a present, non-IP host and no children. -/
def evA : Event :=
  { host := some "evilcorp.com", type := "DNS_NAME", data := "evilcorp.com",
    tags := [], dns_children := [], data_writes := 0 }

/-- The event cache after `evA` has been resolved once via `engineA`. -/
def cacheA : EventCache :=
  [("evilcorp.com", (["resolved"], [("A", ["1.2.3.4"])]))]

/-- Detector reporting record type A as confirmed NOT a wildcard. -/
def det4 : String → Except String WildcardMap :=
  fun _ => .ok [("A", (some false, "evilcorp.com"))]

/-- A childless DNS_NAME event under `evilcorp.com`. -/
def ev4 : Event :=
  { host := some "www.evilcorp.com", type := "DNS_NAME",
    data := "www.evilcorp.com", tags := [], dns_children := [],
    data_writes := 0 }

/-- Detector reporting A as a confirmed wildcard and AAAA as confirmed
not a wildcard. -/
def det5 : String → Except String WildcardMap :=
  fun _ => .ok [("A", (some true, "evilcorp.com")),
                ("AAAA", (some false, "evilcorp.com"))]

/-- The map returned by `det5`. -/
def map5 : WildcardMap :=
  [("A", (some true, "evilcorp.com")),
   ("AAAA", (some false, "evilcorp.com"))]

/-- A DNS_NAME event that resolved with both A and AAAA children. -/
def ev5 : Event :=
  { host := some "www.evilcorp.com", type := "DNS_NAME",
    data := "www.evilcorp.com", tags := [],
    dns_children := [("A", ["1.2.3.4"]), ("AAAA", ["dead::beef"])],
    data_writes := 0 }

/-- The event `ev5` after `handle_wildcard_event` with detector `det5`. -/
def ev5' : Event :=
  { host := some "www.evilcorp.com", type := "DNS_NAME",
    data := "_wildcard.evilcorp.com",
    tags := ["wildcard", "a-wildcard", "aaaa-error"],
    dns_children := [("A", ["1.2.3.4"]), ("AAAA", ["dead::beef"])],
    data_writes := 1 }

/-- A detector whose engine call fails with a transport error. -/
def detFail : String → Except String WildcardMap :=
  fun _ => .error "connection reset"

/-- The map returned by `det4`. -/
def map4 : WildcardMap := [("A", (some false, "evilcorp.com"))]

/-- The event `ev4` after `handle_wildcard_event` with detector `det4`:
only the tag `a-error` was added. -/
def ev4' : Event :=
  { host := some "www.evilcorp.com", type := "DNS_NAME",
    data := "www.evilcorp.com", tags := ["a-error"], dns_children := [],
    data_writes := 0 }

/-- The tags the per-record-type loop of `handle_wildcard_event` generates
for a wildcard-detection map: `wildcard` and `<rdtype>-wildcard` for a
confirmed-wildcard entry, `<rdtype>-error` for every other entry
(confirmed-false and inconclusive alike). -/
def generated_tags (m : WildcardMap) : List String :=
  m.foldr (fun e acc =>
    (if e.2.1 == some true then
      ["wildcard", lowerStr e.1 ++ "-" ++ "wildcard"]
    else
      [lowerStr e.1 ++ "-" ++ "error"]) ++ acc) []

/-! ### Claim theorems -/

/-- Membership in the tags after `add_tag`. -/
theorem mem_add_tag (ev : Event) (s t : String) :
    t ∈ (ev.add_tag s).tags ↔ t ∈ ev.tags ∨ t = s := by
  unfold Event.add_tag
  split
  · rename_i hs
    constructor
    · exact Or.inl
    · rintro (h | rfl)
      · exact h
      · exact hs
  · simp [List.mem_append]

/-- Membership in the tags after one iteration of the tagging loop. -/
theorem mem_tag_one (ev : Event) (e : String × (Option Bool × String))
    (t : String) :
    t ∈ (tag_one ev e).tags ↔
      t ∈ ev.tags ∨ t ∈ (if e.2.1 == some true then
          ["wildcard", lowerStr e.1 ++ "-" ++ "wildcard"]
        else [lowerStr e.1 ++ "-" ++ "error"]) := by
  unfold tag_one
  by_cases h : e.2.1 == some true
  · simp only [h, if_true, mem_add_tag]
    simp
    tauto
  · simp only [h, if_false, mem_add_tag]
    simp

/-- Membership in the tags after the whole tagging loop. -/
theorem mem_tag_step (m : WildcardMap) (ev : Event) (t : String) :
    t ∈ (tag_step ev m).tags ↔ t ∈ ev.tags ∨ t ∈ generated_tags m := by
  induction m generalizing ev with
  | nil => simp [tag_step, generated_tags]
  | cons e es ih =>
      have h1 : tag_step ev (e :: es) = tag_step (tag_one ev e) es := rfl
      have h2 : generated_tags (e :: es) =
          (if e.2.1 == some true then
            ["wildcard", lowerStr e.1 ++ "-" ++ "wildcard"]
          else [lowerStr e.1 ++ "-" ++ "error"]) ++ generated_tags es := rfl
      rw [h1, ih, mem_tag_one, h2]
      simp only [List.mem_append]
      tauto

/-- `add_tag` only touches the tags field. -/
theorem add_tag_fields (ev : Event) (t : String) :
    (ev.add_tag t).data = ev.data
    ∧ (ev.add_tag t).data_writes = ev.data_writes
    ∧ (ev.add_tag t).dns_children = ev.dns_children
    ∧ (ev.add_tag t).type = ev.type := by
  unfold Event.add_tag
  split <;> simp

/-- One tagging iteration only touches the tags field. -/
theorem tag_one_fields (ev : Event) (e : String × (Option Bool × String)) :
    (tag_one ev e).data = ev.data
    ∧ (tag_one ev e).data_writes = ev.data_writes
    ∧ (tag_one ev e).dns_children = ev.dns_children
    ∧ (tag_one ev e).type = ev.type := by
  unfold tag_one
  by_cases h : e.2.1 == some true <;>
    simp [h, add_tag_fields]

/-- The tagging loop only touches the tags field. -/
theorem tag_step_fields (m : WildcardMap) (ev : Event) :
    (tag_step ev m).data = ev.data
    ∧ (tag_step ev m).data_writes = ev.data_writes
    ∧ (tag_step ev m).dns_children = ev.dns_children
    ∧ (tag_step ev m).type = ev.type := by
  induction m generalizing ev with
  | nil => exact ⟨rfl, rfl, rfl, rfl⟩
  | cons e es ih =>
      have h1 : tag_step ev (e :: es) = tag_step (tag_one ev e) es := rfl
      rw [h1]
      obtain ⟨d, w, c, ty⟩ := ih (tag_one ev e)
      obtain ⟨d1, w1, c1, ty1⟩ := tag_one_fields ev e
      exact ⟨d.trans d1, w.trans w1, c.trans c1, ty.trans ty1⟩

/-- The rewrite block never touches the tags field. -/
theorem rewrite_step_tags (ev : Event) (h : String) (m : WildcardMap) :
    (rewrite_step ev h m).tags = ev.tags := by
  simp only [rewrite_step]
  split_ifs <;> simp [Event.set_data]

/-- Shape of a successful `handle_wildcard_event` run on a non-IP host
with a succeeding detector: tag, then rewrite only when the event has DNS
children. -/
theorem handle_ok_shape (misc : Misc)
    (det : String → Except String WildcardMap) (ev : Event)
    (m : WildcardMap)
    (hip : misc.is_ip (pyStrHost ev.host) = false)
    (hdet : det (pyStrHost ev.host) = .ok m) :
    handle_wildcard_event misc det ev =
      .ok (if (tag_step ev m).dns_children.isEmpty then tag_step ev m
           else rewrite_step (tag_step ev m) (pyStrHost ev.host) m) := by
  unfold handle_wildcard_event
  by_cases hch : (tag_step ev m).dns_children.isEmpty <;>
    simp [hip, hdet, hch]

/-- C1 (code_bug): the claim says `resolve_event` returns a four-tuple
`(tags, whitelisted, blacklisted, dnsChildren)` on both the cache-miss and
cache-hit paths whenever the host is present and the type is not IP_RANGE.
The code does not: at the concrete event `evA` (host present, type
DNS_NAME), the cache-miss path returns the two-tuple `(tags, children)`
(line 126 of dns.py), and the cache-hit path raises `NameError` on the
never-assigned `_event_whitelisted` (line 116), contradicting the comment
`# tags, whitelisted, blacklisted, children` at line 98. -/
theorem resolve_event_c1_not_four_tuple :
    resolve_event engineA [] evA false
      = .ok (.two ["resolved"] [("A", ["1.2.3.4"])], cacheA)
    ∧ resolve_event engineA cacheA evA false
      = .error (.nameError "_event_whitelisted") :=
  ⟨rfl, rfl⟩

/-- C3 (code_bug): the claim says two sequential `resolve_event` calls for
the same hostname both succeed with identical tags and children.  In the
code the first (cache-miss) call succeeds, but the second call hits the
cache entry it stored and raises `NameError` on the never-assigned
`_event_whitelisted` (line 116 of dns.py), so it does not succeed at
all — though it indeed performs no engine query. -/
theorem resolve_event_c3_second_call_raises :
    (resolve_event engineA [] evA false
       = .ok (.two ["resolved"] [("A", ["1.2.3.4"])], cacheA))
    ∧ cacheGet cacheA "evilcorp.com" ≠ none
    ∧ resolve_event engineA cacheA evA false
      = .error (.nameError "_event_whitelisted") :=
  ⟨rfl, by decide, rfl⟩

/-- C7 (confirmed): whenever exactly one of `ips` and `rdtype` is supplied,
`is_wildcard` fails with the usage error
"Both ips and rdtype must be specified" — for every helper implementation,
ignore list, engine and query, so no wildcard detection is performed. -/
theorem is_wildcard_c7_usage_error (m : Misc) (ign : List String)
    (engine : String → Option (List String) → Option String → WildcardMap)
    (query : String) (ips : Option (List String)) (rdtype : Option String)
    (h : ips.isNone ≠ rdtype.isNone) :
    is_wildcard m ign engine query ips rdtype
      = .error "Both ips and rdtype must be specified" := by
  have hc : (countNone ips rdtype == 1) = true := by
    cases ips <;> cases rdtype <;> simp_all [countNone]
  unfold is_wildcard
  simp [hc]

/-- C7 witness: supplying only `ips` at a concrete query fails with the
usage error. -/
theorem is_wildcard_c7_usage_error_witness :
    is_wildcard miscModel ["evilcorp.com"] engineW "www.evilcorp.com"
        (some ["1.2.3.4"]) none
      = .error "Both ips and rdtype must be specified" :=
  is_wildcard_c7_usage_error miscModel ["evilcorp.com"] engineW
    "www.evilcorp.com" (some ["1.2.3.4"]) none (by decide)

/-- C10 (confirmed): the ips/rdtype precondition check is the first thing
`is_wildcard` does, before any skip check: for EVERY query string —
including non-DNS names, ignore-listed hostnames, IP literals, dotless
names and bare domains — and every helper implementation, supplying exactly
one of the two optional arguments (in either combination) yields the
`ValueError`, never the empty map. -/
theorem is_wildcard_c10_precondition_first (m : Misc) (ign : List String)
    (engine : String → Option (List String) → Option String → WildcardMap)
    (query : String) (ipsv : List String) (rdtypev : String) :
    is_wildcard m ign engine query (some ipsv) none
        = .error "Both ips and rdtype must be specified"
    ∧ is_wildcard m ign engine query none (some rdtypev)
        = .error "Both ips and rdtype must be specified" := by
  constructor <;> (unfold is_wildcard; simp [countNone])

/-- C6 (confirmed; `host_in_host` modelled from the spec): a query that
equals or is a subdomain of some configured wildcard-ignore entry, when
`is_wildcard` is called with both or neither of ips/rdtype, yields the
empty map with the engine never consulted (the `false` flag records zero
network queries).  This holds for every helper implementation: if the
query fails the dns-name check it is skipped even earlier, likewise with
an empty map and no query. -/
theorem is_wildcard_c6_ignore_excluded (m : Misc) (ign : List String)
    (engine : String → Option (List String) → Option String → WildcardMap)
    (query : String) (ips : Option (List String)) (rdtype : Option String)
    (hargs : ips.isNone = rdtype.isNone)
    (hmatch : ∃ d ∈ ign, query = d ∨ ∃ sub, query = sub ++ ("." ++ d)) :
    is_wildcard m ign engine query ips rdtype = .ok ([], false) := by
  have hc : (countNone ips rdtype == 1) = false := by
    cases ips <;> cases rdtype <;> simp_all [countNone]
  unfold is_wildcard
  rw [if_neg (by simp [hc])]
  by_cases hdns : m.is_dns_name query
  · have hany : ign.any (fun d => host_in_host query d) = true := by
      obtain ⟨d, hd, hqd⟩ := hmatch
      refine List.any_eq_true.mpr ⟨d, hd, ?_⟩
      unfold host_in_host
      rcases hqd with rfl | ⟨sub, rfl⟩
      · simp
      · simp [List.suffix_append]
    simp [hdns, hany]
  · simp [hdns]

/-- C6 witness: with `evilcorp.com` on the ignore list, the subdomain query
`www.evilcorp.com` (called with neither ips nor rdtype) returns the empty
map without consulting the engine. -/
theorem is_wildcard_c6_ignore_excluded_witness :
    is_wildcard miscModel ["evilcorp.com"] engineW "www.evilcorp.com"
        none none
      = .ok ([], false) :=
  is_wildcard_c6_ignore_excluded miscModel ["evilcorp.com"] engineW
    "www.evilcorp.com" none none rfl
    ⟨"evilcorp.com", by simp, Or.inr ⟨"www", by decide⟩⟩

/-- C2 counterexample: `handle_wildcard_event` DOES raise to its caller.
At the concrete non-IP event `ev5`, when the wildcard-detection engine call
fails, the exception propagates out: the body of the Python method sits in
`try ... finally` with no `except` clause, and the `finally` block only
logs, so nothing is swallowed. -/
theorem handle_wildcard_event_c2_cex :
    handle_wildcard_event miscModel detFail ev5
      = .error (.raised "connection reset") := rfl

/-- C2 (corrected): amended claim — `handleWildcardEvent` propagates
internal failures of the wildcard classification to its caller (it does
not swallow them); the call returns normally exactly on the paths where no
internal operation fails: when the host is an IP (classification skipped)
or when the detector call succeeds. -/
theorem handle_wildcard_event_c2_amended (misc : Misc)
    (det : String → Except String WildcardMap) (ev : Event)
    (h : misc.is_ip (pyStrHost ev.host) = true ∨
         ∃ m, det (pyStrHost ev.host) = .ok m) :
    returns_ok (handle_wildcard_event misc det ev) = true := by
  unfold handle_wildcard_event
  rcases h with hip | ⟨m, hm⟩
  · simp [hip, returns_ok]
  · by_cases hip : misc.is_ip (pyStrHost ev.host)
    · simp [hip, returns_ok]
    · simp only [hip, Bool.not_false, if_true, hm]
      split <;> simp [returns_ok]

/-- C2 amended witness: at the concrete event `ev5` with the succeeding
detector `det5`, the call returns normally. -/
theorem handle_wildcard_event_c2_amended_witness :
    returns_ok (handle_wildcard_event miscModel det5 ev5) = true :=
  handle_wildcard_event_c2_amended miscModel det5 ev5 (Or.inr ⟨map5, rfl⟩)

/-- C9 (confirmed): in `handle_wildcard_event` the read of
`wildcard_rdtypes` in the rewrite block (line 221 of dns.py) is guarded by
the same `not is_ip(event.host)` condition as its assignment (line 211),
so no unbound-local `NameError` is reachable — for every helper
implementation, detector and event, the result is never
`PyErr.nameError`. -/
theorem handle_wildcard_event_c9_no_unbound_read (misc : Misc)
    (det : String → Except String WildcardMap) (ev : Event) (v : String) :
    handle_wildcard_event misc det ev ≠ .error (.nameError v) := by
  unfold handle_wildcard_event
  by_cases hip : misc.is_ip (pyStrHost ev.host)
  · simp [hip]
  · cases hdet : det (pyStrHost ev.host) with
    | error e => simp [hip, hdet]
    | ok m =>
        simp only [hip, Bool.not_false, if_true, hdet]
        split <;> simp

/-- C4 counterexample: a record type whose wildcard result is confirmed
false DOES get a tag.  At the concrete event `ev4`, the detector reports
A as `(False, "evilcorp.com")`, and the loop nevertheless adds the tag
`a-error` (the `wildcard_tag = "error"` default at line 213 of dns.py is
used both for inconclusive `None` and for confirmed-false results). -/
theorem handle_wildcard_event_c4_cex :
    handle_wildcard_event miscModel det4 ev4 = .ok ev4'
    ∧ ev4'.tags = ["a-error"] :=
  ⟨rfl, rfl⟩

/-- C4 (corrected): amended claim — in the per-record-type tagging step,
confirmed-wildcard types get `wildcard` and `<recordtype-lowercased>-wildcard`,
and EVERY other type — confirmed-false exactly like inconclusive — gets
`<recordtype-lowercased>-error`; the final tags are exactly the prior tags
plus these generated tags. -/
theorem handle_wildcard_event_c4_amended (misc : Misc)
    (det : String → Except String WildcardMap) (ev ev' : Event)
    (m : WildcardMap)
    (hip : misc.is_ip (pyStrHost ev.host) = false)
    (hdet : det (pyStrHost ev.host) = .ok m)
    (hres : handle_wildcard_event misc det ev = .ok ev') :
    ∀ t, t ∈ ev'.tags ↔ t ∈ ev.tags ∨ t ∈ generated_tags m := by
  have hshape := handle_ok_shape misc det ev m hip hdet
  rw [hres] at hshape
  have hev' : ev' = (if (tag_step ev m).dns_children.isEmpty
      then tag_step ev m
      else rewrite_step (tag_step ev m) (pyStrHost ev.host) m) := by
    injection hshape
  have htags : ev'.tags = (tag_step ev m).tags := by
    rw [hev']
    split
    · rfl
    · exact rewrite_step_tags _ _ _
  intro t
  rw [htags, mem_tag_step]

/-- C4 amended witness: at `ev4` with detector `det4` (A confirmed false),
the tag `a-error` is present in the result exactly because it is among the
generated tags. -/
theorem handle_wildcard_event_c4_amended_witness :
    "a-error" ∈ ev4'.tags ↔
      "a-error" ∈ ev4.tags ∨ "a-error" ∈ generated_tags map4 :=
  handle_wildcard_event_c4_amended miscModel det4 ev4 ev4' map4
    rfl rfl rfl "a-error"

/-- When the full-wildcard test passes (every uppercased resolved record
type is among the keys of the map) and the inner DNS_NAME / `_wildcard`
label guards hold, the rewrite block rewrites the data iff it differs. -/
theorem rewrite_step_full (ev : Event) (h : String) (m : WildcardMap)
    (hne : ev.dns_children ≠ []) (hm : m ≠ [])
    (hall : (ev.dns_children.map (fun c => upperStr c.1)).all
        (fun r => (m.map (fun e => e.1)).contains r) = true)
    (htype : ev.type = "DNS_NAME")
    (hlab : (splitDot ev.data).contains "_wildcard" = false) :
    rewrite_step ev h m =
      if "_wildcard." ++ wildcard_parent_of m h = ev.data then ev
      else ev.set_data ("_wildcard." ++ wildcard_parent_of m h) := by
  have hmE : m.isEmpty = false := by
    cases m
    · exact absurd rfl hm
    · rfl
  have hrE : (ev.dns_children.map (fun c => upperStr c.1)).isEmpty
      = false := by
    cases hcc : ev.dns_children
    · exact absurd hcc hne
    · simp [hcc]
  simp only [rewrite_step, hmE, hrE, hall, htype, hlab, Bool.not_false,
    Bool.and_true, Bool.true_and, Bool.and_self, beq_self_eq_true,
    if_true, Bool.false_eq_true, if_false]
  by_cases heq : "_wildcard." ++ wildcard_parent_of m h = ev.data <;>
    simp [heq, bne]

/-- When some resolved record type is missing from the keys of the map,
the rewrite block leaves the event untouched. -/
theorem rewrite_step_not_full (ev : Event) (h : String) (m : WildcardMap)
    (hall : (ev.dns_children.map (fun c => upperStr c.1)).all
        (fun r => (m.map (fun e => e.1)).contains r) = false) :
    rewrite_step ev h m = ev := by
  simp only [rewrite_step, hall, Bool.and_false, Bool.false_eq_true,
    if_false]
  split <;> rfl

/-- C5 counterexample: an event whose resolved record types are {A, AAAA}
with only A classified wildcard (AAAA confirmed false) IS rewritten: the
full-wildcard membership test at line 229 of dns.py checks the keys of
`wildcard_rdtypes`, not the wildcard-classified subset, so the
confirmed-false AAAA entry counts as "wildcard" and the event data is
changed to `_wildcard.evilcorp.com`. -/
theorem handle_wildcard_event_c5_cex :
    handle_wildcard_event miscModel det5 ev5 = .ok ev5'
    ∧ ev5'.data = "_wildcard.evilcorp.com"
    ∧ ev5'.data ≠ ev5.data :=
  ⟨rfl, rfl, by decide⟩

/-- C5 (corrected): amended claim — the event is treated as a full
wildcard (data rewritten, with the DNS_NAME / `_wildcard`-label / differing
value guards in force) iff its set of uppercased resolved record types is
non-empty and every member is among the record types PRESENT in the
wildcard detection map (its keys), regardless of how each was classified;
the partial event {A, AAAA} with only A wildcard escapes the rewrite only
when AAAA is absent from the map, and it always keeps the `a-wildcard`
tag. -/
theorem handle_wildcard_event_c5_amended (misc : Misc)
    (det : String → Except String WildcardMap) (ev ev' : Event)
    (m : WildcardMap)
    (hip : misc.is_ip (pyStrHost ev.host) = false)
    (hdet : det (pyStrHost ev.host) = .ok m)
    (htype : ev.type = "DNS_NAME")
    (hlab : (splitDot ev.data).contains "_wildcard" = false)
    (hdiff : "_wildcard." ++ wildcard_parent_of m (pyStrHost ev.host)
      ≠ ev.data)
    (hres : handle_wildcard_event misc det ev = .ok ev') :
    ev'.data_writes = ev.data_writes + 1 ↔
      (ev.dns_children ≠ [] ∧ m ≠ [] ∧
        (ev.dns_children.map (fun c => upperStr c.1)).all
          (fun r => (m.map (fun e => e.1)).contains r) = true) := by
  have hshape := handle_ok_shape misc det ev m hip hdet
  rw [hres] at hshape
  have hev' : ev' = (if (tag_step ev m).dns_children.isEmpty
      then tag_step ev m
      else rewrite_step (tag_step ev m) (pyStrHost ev.host) m) := by
    injection hshape
  obtain ⟨hd, hw, hc, hty⟩ := tag_step_fields m ev
  by_cases hch : ev.dns_children = []
  · have hE : (tag_step ev m).dns_children.isEmpty = true := by
      rw [hc, hch]; rfl
    rw [hev', if_pos hE, hw]
    constructor
    · intro hcontra; exact absurd hcontra (by omega)
    · rintro ⟨hne, -, -⟩; exact absurd hch hne
  · have hE : (tag_step ev m).dns_children.isEmpty = false := by
      rw [hc]
      cases hcc : ev.dns_children
      · exact absurd hcc hch
      · rfl
    rw [hev', if_neg (by simp [hE])]
    by_cases hm : m = []
    · subst hm
      rw [show rewrite_step (tag_step ev []) (pyStrHost ev.host) []
            = tag_step ev [] from rfl, hw]
      constructor
      · intro hcontra; exact absurd hcontra (by omega)
      · rintro ⟨-, hne, -⟩; exact absurd rfl hne
    · by_cases hall : (ev.dns_children.map (fun c => upperStr c.1)).all
          (fun r => (m.map (fun e => e.1)).contains r) = true
      · have hneT : (tag_step ev m).dns_children ≠ [] := by
          rw [hc]; exact hch
        have hallT : ((tag_step ev m).dns_children.map
              (fun c => upperStr c.1)).all
            (fun r => (m.map (fun e => e.1)).contains r) = true := by
          rw [hc]; exact hall
        have htyT : (tag_step ev m).type = "DNS_NAME" := by
          rw [hty, htype]
        have hlabT : (splitDot (tag_step ev m).data).contains "_wildcard"
            = false := by rw [hd]; exact hlab
        rw [rewrite_step_full _ _ _ hneT hm hallT htyT hlabT,
          if_neg (by rw [hd]; exact hdiff)]
        simp only [Event.set_data, hw]
        exact ⟨fun _ => ⟨hch, hm, hall⟩, fun _ => by trivial⟩
      · have hallF : (ev.dns_children.map (fun c => upperStr c.1)).all
            (fun r => (m.map (fun e => e.1)).contains r) = false :=
          Bool.eq_false_iff.mpr hall
        have hallFT : ((tag_step ev m).dns_children.map
              (fun c => upperStr c.1)).all
            (fun r => (m.map (fun e => e.1)).contains r) = false := by
          rw [hc]; exact hallF
        rw [rewrite_step_not_full _ _ _ hallFT, hw]
        constructor
        · intro hcontra; exact absurd hcontra (by omega)
        · rintro ⟨-, -, hcl⟩; exact absurd hcl hall

/-- C5 amended witness: at the concrete partial-wildcard event `ev5` (A
wildcard, AAAA confirmed false, both present in the map), the data rewrite
happened and indeed every resolved type is among the keys of the map. -/
theorem handle_wildcard_event_c5_amended_witness :
    ev5'.data_writes = ev5.data_writes + 1 ↔
      (ev5.dns_children ≠ [] ∧ map5 ≠ [] ∧
        (ev5.dns_children.map (fun c => upperStr c.1)).all
          (fun r => (map5.map (fun e => e.1)).contains r) = true) :=
  handle_wildcard_event_c5_amended miscModel det5 ev5 ev5' map5
    rfl rfl rfl (by decide) (by decide) rfl

/-- C8 (confirmed; `parent_domain` modelled from the spec): when
`handle_wildcard_event` rewrites a full-wildcard DNS_NAME event whose data
does not contain the label `_wildcard`, the parent used in
`_wildcard.<parent>` is `wildcard_parent_of m host` — the immediate parent
domain of the event host by default, overridden by the WildcardParent of
the first wildcard-classified (Python-truthy, i.e. `True`) record type in
the iteration order of the per-type results — and `event.data` is
assigned (observable in `data_writes`) only when the new value differs
from the current one. -/
theorem handle_wildcard_event_c8_parent_and_conditional_write
    (misc : Misc) (det : String → Except String WildcardMap)
    (ev ev' : Event) (m : WildcardMap)
    (hip : misc.is_ip (pyStrHost ev.host) = false)
    (hdet : det (pyStrHost ev.host) = .ok m)
    (hch : ev.dns_children ≠ []) (hm : m ≠ [])
    (hall : (ev.dns_children.map (fun c => upperStr c.1)).all
        (fun r => (m.map (fun e => e.1)).contains r) = true)
    (htype : ev.type = "DNS_NAME")
    (hlab : (splitDot ev.data).contains "_wildcard" = false)
    (hres : handle_wildcard_event misc det ev = .ok ev') :
    ev'.data = "_wildcard." ++ wildcard_parent_of m (pyStrHost ev.host)
    ∧ ev'.data_writes = ev.data_writes +
        (if "_wildcard." ++ wildcard_parent_of m (pyStrHost ev.host)
            = ev.data then 0 else 1) := by
  have hshape := handle_ok_shape misc det ev m hip hdet
  rw [hres] at hshape
  have hev' : ev' = (if (tag_step ev m).dns_children.isEmpty
      then tag_step ev m
      else rewrite_step (tag_step ev m) (pyStrHost ev.host) m) := by
    injection hshape
  obtain ⟨hd, hw, hc, hty⟩ := tag_step_fields m ev
  have hE : (tag_step ev m).dns_children.isEmpty = false := by
    rw [hc]
    cases hcc : ev.dns_children
    · exact absurd hcc hch
    · rfl
  rw [hev', if_neg (by simp [hE])]
  have hneT : (tag_step ev m).dns_children ≠ [] := by rw [hc]; exact hch
  have hallT : ((tag_step ev m).dns_children.map
        (fun c => upperStr c.1)).all
      (fun r => (m.map (fun e => e.1)).contains r) = true := by
    rw [hc]; exact hall
  have htyT : (tag_step ev m).type = "DNS_NAME" := by rw [hty, htype]
  have hlabT : (splitDot (tag_step ev m).data).contains "_wildcard"
      = false := by rw [hd]; exact hlab
  rw [rewrite_step_full _ _ _ hneT hm hallT htyT hlabT]
  by_cases heq : "_wildcard." ++ wildcard_parent_of m (pyStrHost ev.host)
      = ev.data
  · rw [if_pos (by rw [hd]; exact heq), if_pos heq]
    exact ⟨hd.trans heq.symm, hw⟩
  · rw [if_neg (by rw [hd]; exact heq), if_neg heq]
    exact ⟨rfl, by simp [Event.set_data, hw]⟩

/-- C8 witness: at the concrete full-wildcard (per the keys of the map)
event `ev5`, the rewritten data is `_wildcard.` followed by the parent
reported by the first wildcard-classified record type (A → `evilcorp.com`),
and the single data assignment is recorded because the value differs. -/
theorem handle_wildcard_event_c8_witness :
    ev5'.data = "_wildcard." ++ wildcard_parent_of map5 (pyStrHost ev5.host)
    ∧ ev5'.data_writes = ev5.data_writes +
        (if "_wildcard." ++ wildcard_parent_of map5 (pyStrHost ev5.host)
            = ev5.data then 0 else 1) :=
  handle_wildcard_event_c8_parent_and_conditional_write miscModel det5
    ev5 ev5' map5 rfl rfl (by decide) (by decide) (by decide) rfl
    (by decide) rfl

end BBotDNS
